import Mathlib

/-!
Shallow embedding of the five zenoh example programs
(sensor.rs, motion.rs, t_sub.rs, t_get.rs, t_eval.rs) and proofs of the
behavioural claims about them.  Every definition mirrors the corresponding
Rust source; hash maps and zenoh Properties are modelled as association
lists, the zenoh Value enum as an inductive type, and the opentelemetry
carrier maps as the same association lists.
-/

namespace ZenohExamples

/-- The zenoh Value enum (payload of a put / change / reply).  The float
variant keeps only its textual form since no example computes with it. -/
inductive Value
  | raw (data : List Nat)
  | custom (encodingDescr : String) (data : List Nat)
  | stringUtf8 (s : String)
  | properties (props : List (String × String))
  | json (s : String)
  | integer (i : Int)
  | float (text : String)
deriving DecidableEq

/-- A string-to-string map (zenoh Properties / a Rust HashMap of strings),
modelled as an association list without duplicate keys exposed. -/
abbrev Props := List (String × String)

/-- Lookup in a Props map (HashMap get / Properties get). -/
def lookupProp : Props → String → Option String
  | [], _ => none
  | (k, v) :: m, k' => if k = k' then some v else lookupProp m k'

/-- Insert into a Props map with HashMap semantics: replace the existing
binding of the key if present, otherwise append a new binding. -/
def insertProp : Props → String → String → Props
  | [], k, v => [(k, v)]
  | (k', v') :: m, k, v =>
      if k' = k then (k, v) :: m else (k', v') :: insertProp m k v

/-- The command-line flags shared by all five programs: session mode, peer
locators, listener locators, an optional configuration file (modelled by the
Properties parsed from it) and the no-multicast-scouting switch.  A present
flag carries the list of values clap collected for it. -/
structure CommonArgs where
  mode : Option (List String)
  peer : Option (List String)
  listener : Option (List String)
  configFile : Option Props
  noMulticastScouting : Bool

/-- Joining repeated flag values with a comma, as in
value.collect::<Vec<&str>>().join(","). -/
def joinComma (vs : List String) : String := String.intercalate "," vs

/-- One iteration of the parse_args loop over mode, peer, listener: when the
flag is present, insert its comma-joined values under the same-named key. -/
def insertIfPresent (m : Props) (key : String) (o : Option (List String)) : Props :=
  match o with
  | some vs => insertProp m key (joinComma vs)
  | none => m

/-- The configuration-building block shared verbatim by every parse_args:
start from the config file (or an empty Properties), insert mode, peer and
listener when present with comma-joined values, then insert
multicast_scouting = false when --no-multicast-scouting was given. -/
def buildConfig (a : CommonArgs) : Props :=
  let base := a.configFile.getD []
  let c3 :=
    insertIfPresent
      (insertIfPresent (insertIfPresent base "mode" a.mode) "peer" a.peer)
      "listener" a.listener
  if a.noMulticastScouting then insertProp c3 "multicast_scouting" "false" else c3

/-- sensor.rs parse_args: the configuration plus the --path and --value
flags with their clap default values. -/
def sensorParseArgs (a : CommonArgs) (path value : Option String) :
    Props × String × String :=
  (buildConfig a, path.getD "/demo/example/zenoh-rs-put", value.getD "Put from Rust!")

/-- t_get.rs parse_args: the configuration plus the --selector flag. -/
def tGetParseArgs (a : CommonArgs) (selector : Option String) : Props × String :=
  (buildConfig a, selector.getD "/demo/example/**")

/-- t_sub.rs parse_args: the configuration plus the --selector flag. -/
def tSubParseArgs (a : CommonArgs) (selector : Option String) : Props × String :=
  (buildConfig a, selector.getD "/demo/example/**")

/-- motion.rs parse_args: the configuration plus the --selector flag. -/
def motionParseArgs (a : CommonArgs) (selector : Option String) : Props × String :=
  (buildConfig a, selector.getD "/demo/example/**")

/-- t_eval.rs parse_args: the configuration plus the --path flag. -/
def tEvalParseArgs (a : CommonArgs) (path : Option String) : Props × String :=
  (buildConfig a, path.getD "/demo/example/eval")

/-- sensor.rs main, lines 38-51: the put issued after parse_args.  The path
comes from the parsed arguments, the payload is the injected carrier entry
for traceparent turned into a StringUtf8 value; indexing the map with a
missing key panics, modelled by none. -/
def sensorPutAction (injector : Props) (a : CommonArgs)
    (path value : Option String) : Option (String × Value) :=
  match lookupProp injector "traceparent" with
  | some s => some ((sensorParseArgs a path value).2.1, Value.stringUtf8 s)
  | none => none

/-- motion.rs main, lines 58-69: the extraction carrier built from a received
change value.  Only a StringUtf8 payload inserts a traceparent entry. -/
def motionCarrier (v : Value) : Props :=
  match v with
  | Value.stringUtf8 s => insertProp [] "traceparent" s
  | _ => []

/-- t_sub.rs main, lines 59-64: the extraction carrier built from a received
change value.  A StringUtf8 payload contributes its content; every other
payload type contributes the fixed string "other data type"; the insert is
unconditional. -/
def tSubCarrier (v : Value) : Props :=
  let s := match v with
    | Value.stringUtf8 s => s
    | _ => "other data type"
  insertProp [] "traceparent" s

/-- A pub/sub store operation issued by a program. -/
inductive Action
  | putAt (path : String) (v : Value)
  | getAt (selector : String)
deriving DecidableEq

/-- t_get.rs main, lines 51-61: the store operations performed after the
session is up.  When the injected carrier has a traceparent entry, a put of
that entry to the hard-coded path /demo/example/eval happens first; then the
get on the parsed selector is issued. -/
def tGetActions (injector : Props) (a : CommonArgs)
    (selector : Option String) : List Action :=
  (match lookupProp injector "traceparent" with
   | some s => [Action.putAt "/demo/example/eval" (Value.stringUtf8 s)]
   | none => []) ++ [Action.getAt (tGetParseArgs a selector).2]

/-- A zenoh Selector: a path expression plus its properties map. -/
structure Selector where
  pathExpr : String
  properties : Props

/-- A GetRequest received on the eval stream carries the selector the
requester used. -/
structure GetRequest where
  selector : Selector

/-- Outcomes of the external calls the t_eval request handler may make:
whether Selector::try_from on the name succeeds, and the first data item the
nested workspace.get yields (none when the stream is empty). -/
structure EvalEnv where
  selOk : Bool
  getResult : Option Value

/-- Rust str::starts_with with the character argument used in t_eval.rs:
true exactly when the first character of the string is a slash. -/
def startsWithSlash (s : String) : Bool :=
  match s.data with
  | [] => false
  | c :: _ => c = '/'

/-- t_eval.rs main, lines 93-119: resolve the name from the selector
properties (default "Rust!"), issue a nested get only when it starts with
the path separator and the selector parses, then format the reply string.
The Bool records whether the nested get was issued. -/
def tEvalHandle (env : EvalEnv) (nameProp : Option String) : Bool × String :=
  let name := nameProp.getD "Rust!"
  if startsWithSlash name then
    if env.selOk then
      match env.getResult with
      | some (Value.stringUtf8 s) => (true, "Eval from " ++ s)
      | some _ => (true, "Eval from " ++ name)
      | none => (true, "Eval from " ++ name)
    else (false, "Eval from " ++ name)
  else (false, "Eval from " ++ name)

/-- t_eval.rs main, line 120: the reply sent for a request is always
addressed to the registered path, with the handler string as a StringUtf8
value. -/
def tEvalHandleReply (registeredPath : String) (env : EvalEnv)
    (req : GetRequest) : String × Value :=
  (registeredPath,
   Value.stringUtf8 (tEvalHandle env (lookupProp req.selector.properties "name")).2)

/-- The kind carried by a zenoh Change. -/
inductive ChangeKind
  | putKind
  | patchKind
  | deleteKind
deriving DecidableEq

/-- A change delivered by the subscription stream; value is optional in
zenoh (a delete carries none). -/
structure ChangeMsg where
  kind : ChangeKind
  path : String
  value : Option Value
  timestamp : Nat

/-- One wake-up of the subscriber select loop: either the change stream
yielded (none when it ended) or a byte was read from stdin. -/
inductive LoopEvent
  | change (c : Option ChangeMsg)
  | key (b : Nat)

/-- What one loop iteration does with its event. -/
inductive StepOutcome
  | cont
  | exited
  | panicked
deriving DecidableEq

/-- t_sub.rs main, lines 54-97: a change of none panics (unwrap), a change
without a value panics (unwrap), any other change continues; a stdin byte
breaks the loop exactly when it is the letter q (byte 113), otherwise the
loop continues. -/
def tSubLoopStep : LoopEvent → StepOutcome
  | LoopEvent.change none => StepOutcome.panicked
  | LoopEvent.change (some c) =>
      match c.value with
      | none => StepOutcome.panicked
      | some _ => StepOutcome.cont
  | LoopEvent.key b => if b = 113 then StepOutcome.exited else StepOutcome.cont

/-- motion.rs main, lines 53-82: identical loop structure to t_sub. -/
def motionLoopStep : LoopEvent → StepOutcome
  | LoopEvent.change none => StepOutcome.panicked
  | LoopEvent.change (some c) =>
      match c.value with
      | none => StepOutcome.panicked
      | some _ => StepOutcome.cont
  | LoopEvent.key b => if b = 113 then StepOutcome.exited else StepOutcome.cont

/-- The external-library calls named by the error-handling claim. -/
inductive LibCall
  | zenohNew
  | workspaceNew
  | subscribeCall
  | getCall
  | putCall
  | registerEval
  | closeStream
  | closeSession
deriving DecidableEq

/-- sensor.rs: Zenoh::new, workspace, put, close, each unwrapped. -/
def sensorCalls : List LibCall :=
  [LibCall.zenohNew, LibCall.workspaceNew, LibCall.putCall, LibCall.closeSession]

/-- t_get.rs: Zenoh::new, workspace, the conditional put (issued only when
the injected carrier has a traceparent entry), get, close, each
unwrapped. -/
def tGetCalls (hasTraceparent : Bool) : List LibCall :=
  [LibCall.zenohNew, LibCall.workspaceNew]
    ++ (if hasTraceparent then [LibCall.putCall] else [])
    ++ [LibCall.getCall, LibCall.closeSession]

/-- t_sub.rs: Zenoh::new, workspace, subscribe, stream close, session close,
each unwrapped; the loop body makes no further library call of these
kinds. -/
def tSubCalls : List LibCall :=
  [LibCall.zenohNew, LibCall.workspaceNew, LibCall.subscribeCall,
   LibCall.closeStream, LibCall.closeSession]

/-- motion.rs: same call skeleton as t_sub.rs. -/
def motionCalls : List LibCall :=
  [LibCall.zenohNew, LibCall.workspaceNew, LibCall.subscribeCall,
   LibCall.closeStream, LibCall.closeSession]

/-- t_eval.rs: Zenoh::new, workspace, register_eval, subscribe, one nested
get per handled request whose name resolves through a path, then the two
stream closes and the session close, each unwrapped. -/
def tEvalCalls (nestedGets : Nat) : List LibCall :=
  [LibCall.zenohNew, LibCall.workspaceNew, LibCall.registerEval,
   LibCall.subscribeCall]
    ++ List.replicate nestedGets LibCall.getCall
    ++ [LibCall.closeStream, LibCall.closeStream, LibCall.closeSession]

/-- Run a sequence of unwrapped library calls from position k against an
environment telling which call position fails.  Mirrors a chain of
.unwrap(): the first failing call panics, executing nothing afterwards.
Returns the calls attempted and whether the program completed. -/
def runCallsFrom (fails : Nat → Bool) : Nat → List LibCall → List LibCall × Bool
  | _, [] => ([], true)
  | k, c :: cs =>
      if fails k then ([c], false)
      else
        let r := runCallsFrom fails (k + 1) cs
        (c :: r.1, r.2)

/-- Run a call sequence from the start. -/
def runCalls (fails : Nat → Bool) (cs : List LibCall) : List LibCall × Bool :=
  runCallsFrom fails 0 cs

/-- A call sequence aborts at its first failure: when call i is the first to
fail, exactly the calls up to and including i are attempted and the program
does not complete. -/
def abortsAtFirstFailure (fails : Nat → Bool) (cs : List LibCall) : Prop :=
  ∀ i, i < cs.length → fails i = true → (∀ j, j < i → fails j = false) →
    runCalls fails cs = (cs.take (i + 1), false)

/-! ## Helper lemmas about the map model and the call runner -/

theorem lookup_insert_self (m : Props) (k v : String) :
    lookupProp (insertProp m k v) k = some v := by
  induction m with
  | nil => simp [insertProp, lookupProp]
  | cons hd tl ih =>
      obtain ⟨k', v'⟩ := hd
      by_cases h : k' = k
      · simp [insertProp, lookupProp, h]
      · simp [insertProp, lookupProp, h, ih]

theorem lookup_insert_of_ne (m : Props) (k v k' : String) (h : k ≠ k') :
    lookupProp (insertProp m k v) k' = lookupProp m k' := by
  induction m with
  | nil => simp [insertProp, lookupProp, h]
  | cons hd tl ih =>
      obtain ⟨k₀, v₀⟩ := hd
      by_cases hk : k₀ = k
      · subst hk
        simp [insertProp, lookupProp, h]
      · simp [insertProp, lookupProp, hk, ih]

theorem lookup_insert_isSome (m : Props) (k v k' : String)
    (h : (lookupProp (insertProp m k v) k').isSome = true) :
    k' = k ∨ (lookupProp m k').isSome = true := by
  by_cases hk : k = k'
  · exact Or.inl hk.symm
  · right
    rwa [lookup_insert_of_ne m k v k' hk] at h

theorem lookup_insertIfPresent_of_ne (m : Props) (key : String)
    (o : Option (List String)) (k : String) (h : key ≠ k) :
    lookupProp (insertIfPresent m key o) k = lookupProp m k := by
  cases o with
  | none => rfl
  | some vs => exact lookup_insert_of_ne m key (joinComma vs) k h

theorem lookup_insertIfPresent_isSome (m : Props) (key : String)
    (o : Option (List String)) (k : String)
    (h : (lookupProp (insertIfPresent m key o) k).isSome = true) :
    k = key ∨ (lookupProp m k).isSome = true := by
  cases o with
  | none => exact Or.inr h
  | some vs => exact lookup_insert_isSome m key (joinComma vs) k h

/-- Every key present in the built configuration comes from the config file
or is one of the four flag-controlled keys. -/
theorem buildConfig_key_provenance (a : CommonArgs) (k : String)
    (h : (lookupProp (buildConfig a) k).isSome = true) :
    (lookupProp (a.configFile.getD []) k).isSome = true ∨
      k = "mode" ∨ k = "peer" ∨ k = "listener" ∨ k = "multicast_scouting" := by
  unfold buildConfig at h
  cases hnm : a.noMulticastScouting with
  | true =>
      rw [hnm] at h
      simp only [if_true] at h
      rcases lookup_insert_isSome _ _ _ _ h with h | h
      · exact Or.inr (Or.inr (Or.inr (Or.inr h)))
      · rcases lookup_insertIfPresent_isSome _ _ _ _ h with h | h
        · exact Or.inr (Or.inr (Or.inr (Or.inl h)))
        · rcases lookup_insertIfPresent_isSome _ _ _ _ h with h | h
          · exact Or.inr (Or.inr (Or.inl h))
          · rcases lookup_insertIfPresent_isSome _ _ _ _ h with h | h
            · exact Or.inr (Or.inl h)
            · exact Or.inl h
  | false =>
      rw [hnm] at h
      simp only [if_false] at h
      rcases lookup_insertIfPresent_isSome _ _ _ _ h with h | h
      · exact Or.inr (Or.inr (Or.inr (Or.inl h)))
      · rcases lookup_insertIfPresent_isSome _ _ _ _ h with h | h
        · exact Or.inr (Or.inr (Or.inl h))
        · rcases lookup_insertIfPresent_isSome _ _ _ _ h with h | h
          · exact Or.inr (Or.inl h)
          · exact Or.inl h

theorem runCallsFrom_abort (fails : Nat → Bool) :
    ∀ (cs : List LibCall) (k i : Nat), i < cs.length → fails (k + i) = true →
      (∀ j, j < i → fails (k + j) = false) →
      runCallsFrom fails k cs = (cs.take (i + 1), false) := by
  intro cs
  induction cs with
  | nil => intro k i h; simp at h
  | cons c rest ih =>
      intro k i hlen hfail hfirst
      cases i with
      | zero =>
          simp only [Nat.add_zero] at hfail
          simp [runCallsFrom, hfail]
      | succ n =>
          have h0 : fails k = false := by
            have := hfirst 0 (Nat.succ_pos n)
            simpa using this
          have hrec := ih (k + 1) n (by simpa using Nat.lt_of_succ_lt_succ hlen)
            (by
              have e : k + 1 + n = k + (n + 1) := by omega
              rw [e]; exact hfail)
            (by
              intro j hj
              have e : k + 1 + j = k + (j + 1) := by omega
              rw [e]; exact hfirst (j + 1) (Nat.succ_lt_succ hj))
          simp [runCallsFrom, h0, hrec]

theorem runCalls_abort (fails : Nat → Bool) (cs : List LibCall) :
    abortsAtFirstFailure fails cs := by
  intro i hlen hfail hfirst
  exact runCallsFrom_abort fails cs 0 i hlen (by simpa using hfail)
    (by intro j hj; simpa using hfirst j hj)

theorem tEvalHandle_fst_startsWith (env : EvalEnv) (np : Option String)
    (h : (tEvalHandle env np).1 = true) :
    startsWithSlash (np.getD "Rust!") = true := by
  cases hs : startsWithSlash (np.getD "Rust!") with
  | true => rfl
  | false => simp [tEvalHandle, hs] at h

/-! ## Claim theorems -/

/-- C1: trace-context round-trip through the payload.  If the sensor's
injected carrier maps traceparent to s, the put payload is exactly the
StringUtf8 value s, and a subscriber that receives that payload as a UTF-8
string rebuilds a carrier whose traceparent entry is exactly s (both for
motion.rs and for t_sub.rs). -/
theorem C1_trace_roundtrip (injector : Props) (a : CommonArgs)
    (path value : Option String) (s : String)
    (h : lookupProp injector "traceparent" = some s) :
    sensorPutAction injector a path value =
      some ((sensorParseArgs a path value).2.1, Value.stringUtf8 s) ∧
    lookupProp (motionCarrier (Value.stringUtf8 s)) "traceparent" = some s ∧
    lookupProp (tSubCarrier (Value.stringUtf8 s)) "traceparent" = some s := by
  refine ⟨?_, ?_, ?_⟩
  · simp [sensorPutAction, h]
  · simp [motionCarrier, insertProp, lookupProp]
  · simp [tSubCarrier, insertProp, lookupProp]

/-- Witness for C1 at a concrete header string. -/
theorem C1_trace_roundtrip_witness :
    sensorPutAction [("traceparent", "00-abc-01")]
        (CommonArgs.mk none none none none false) none none =
      some ("/demo/example/zenoh-rs-put", Value.stringUtf8 "00-abc-01") ∧
    lookupProp (motionCarrier (Value.stringUtf8 "00-abc-01")) "traceparent" =
      some "00-abc-01" := by
  have h := C1_trace_roundtrip [("traceparent", "00-abc-01")]
    (CommonArgs.mk none none none none false) none none "00-abc-01" (by decide)
  exact ⟨h.1, h.2.1⟩

/-- C2 counterexample: with path /my/path and value v1 supplied on the
command line and no other flags, the returned Properties configuration is
empty, so it contains neither the path nor the value; they are returned as
separate components instead. -/
theorem C2_config_counterexample :
    (sensorParseArgs (CommonArgs.mk none none none none false)
        (some "/my/path") (some "v1")).1 = [] ∧
    (sensorParseArgs (CommonArgs.mk none none none none false)
        (some "/my/path") (some "v1")).2.1 = "/my/path" ∧
    (sensorParseArgs (CommonArgs.mk none none none none false)
        (some "/my/path") (some "v1")).2.2 = "v1" := by
  refine ⟨rfl, rfl, rfl⟩

/-- C2 amended: parse_args returns the path/selector/value flags as separate
components next to the configuration, never inside it; every key present in
the configuration comes from the config file or from the mode, peer,
listener or no-multicast-scouting flags. -/
theorem C2_args_forwarding (a : CommonArgs) (p v sel pe : Option String)
    (k : String) :
    ((lookupProp (sensorParseArgs a p v).1 k).isSome = true →
      (lookupProp (a.configFile.getD []) k).isSome = true ∨
        k = "mode" ∨ k = "peer" ∨ k = "listener" ∨ k = "multicast_scouting") ∧
    (sensorParseArgs a p v).2.1 = p.getD "/demo/example/zenoh-rs-put" ∧
    (sensorParseArgs a p v).2.2 = v.getD "Put from Rust!" ∧
    (tGetParseArgs a sel).2 = sel.getD "/demo/example/**" ∧
    (tSubParseArgs a sel).2 = sel.getD "/demo/example/**" ∧
    (motionParseArgs a sel).2 = sel.getD "/demo/example/**" ∧
    (tEvalParseArgs a pe).2 = pe.getD "/demo/example/eval" := by
  exact ⟨fun h => buildConfig_key_provenance a k h, rfl, rfl, rfl, rfl, rfl, rfl⟩

/-- Witness for C2 amended: with only --mode client given, the key mode is
present in the configuration and its provenance is the mode flag. -/
theorem C2_args_forwarding_witness :
    (lookupProp (sensorParseArgs (CommonArgs.mk (some ["client"]) none none none false)
        (some "/p") (some "v")).1 "mode").isSome = true ∧
    ((lookupProp ((CommonArgs.mk (some ["client"]) none none none false).configFile.getD [])
        "mode").isSome = true ∨
      "mode" = "mode" ∨ "mode" = "peer" ∨ "mode" = "listener" ∨
      "mode" = "multicast_scouting") := by
  refine ⟨by decide, ?_⟩
  exact (C2_args_forwarding (CommonArgs.mk (some ["client"]) none none none false)
    (some "/p") (some "v") none none "mode").1 (by decide)

/-- C3: eval name selection.  Without a name property the reply string is
Eval from Rust! and no nested get is issued; with a name property that does
not start with the path separator the reply is Eval from followed by that
value and no nested get is issued; a nested get is issued only when the
resolved name starts with the path separator. -/
theorem C3_eval_name_selection (env : EvalEnv) (req : GetRequest) :
    (lookupProp req.selector.properties "name" = none →
      tEvalHandle env (lookupProp req.selector.properties "name") =
        (false, "Eval from Rust!")) ∧
    (∀ n, lookupProp req.selector.properties "name" = some n →
      startsWithSlash n = false →
      tEvalHandle env (lookupProp req.selector.properties "name") =
        (false, "Eval from " ++ n)) ∧
    ((tEvalHandle env (lookupProp req.selector.properties "name")).1 = true →
      startsWithSlash ((lookupProp req.selector.properties "name").getD "Rust!") = true) := by
  refine ⟨?_, ?_, ?_⟩
  · intro h
    rw [h]
    rfl
  · intro n hn hs
    rw [hn]
    simp [tEvalHandle, hs]
  · exact tEvalHandle_fst_startsWith env _

/-- Witness for C3: a request with name Bob gets reply Eval from Bob with
no nested get, and one without a name gets Eval from Rust!. -/
theorem C3_eval_name_selection_witness :
    tEvalHandle (EvalEnv.mk true none) (lookupProp ([("name", "Bob")] : Props) "name") =
      (false, "Eval from Bob") ∧
    tEvalHandle (EvalEnv.mk true none) (lookupProp ([] : Props) "name") =
      (false, "Eval from Rust!") := by
  constructor
  · exact (C3_eval_name_selection (EvalEnv.mk true none)
      (GetRequest.mk (Selector.mk "/demo/example/eval" [("name", "Bob")]))).2.1
      "Bob" (by decide) (by decide)
  · exact (C3_eval_name_selection (EvalEnv.mk true none)
      (GetRequest.mk (Selector.mk "/demo/example/eval" []))).1 (by decide)

/-- C4: abort on failure.  For each of the five programs, when an
external-library call fails, the run attempts exactly the calls up to and
including the first failing one and does not complete: no retry, no
recovery, no later pub/sub operation. -/
theorem C4_abort_on_failure (fails : Nat → Bool) (hasTraceparent : Bool)
    (nestedGets : Nat) :
    abortsAtFirstFailure fails sensorCalls ∧
    abortsAtFirstFailure fails (tGetCalls hasTraceparent) ∧
    abortsAtFirstFailure fails tSubCalls ∧
    abortsAtFirstFailure fails motionCalls ∧
    abortsAtFirstFailure fails (tEvalCalls nestedGets) :=
  ⟨runCalls_abort fails sensorCalls, runCalls_abort fails (tGetCalls hasTraceparent),
   runCalls_abort fails tSubCalls, runCalls_abort fails motionCalls,
   runCalls_abort fails (tEvalCalls nestedGets)⟩

/-- Witness for C4: when the sensor's put (its third call) fails, exactly
session open, workspace creation and the failed put are attempted and the
program does not complete. -/
theorem C4_abort_on_failure_witness :
    runCalls (fun i => decide (i = 2)) sensorCalls =
      ([LibCall.zenohNew, LibCall.workspaceNew, LibCall.putCall], false) := by
  have h := (C4_abort_on_failure (fun i => decide (i = 2)) true 0).1 2
    (by decide) (by decide) (by decide)
  exact h.trans (by decide)

/-- C5: argument-to-configuration mapping.  A present mode, peer or listener
flag maps to the same-named key with comma-joined values, the
no-multicast-scouting flag maps to multicast_scouting = false, and an absent
flag inserts nothing (the lookup stays what the config-file base gives). -/
theorem C5_flag_mapping (m p l : Option (List String)) (cf : Option Props)
    (nm : Bool) :
    (∀ vs, m = some vs →
      lookupProp (buildConfig (CommonArgs.mk m p l cf nm)) "mode" =
        some (joinComma vs)) ∧
    (∀ vs, p = some vs →
      lookupProp (buildConfig (CommonArgs.mk m p l cf nm)) "peer" =
        some (joinComma vs)) ∧
    (∀ vs, l = some vs →
      lookupProp (buildConfig (CommonArgs.mk m p l cf nm)) "listener" =
        some (joinComma vs)) ∧
    (nm = true →
      lookupProp (buildConfig (CommonArgs.mk m p l cf nm)) "multicast_scouting" =
        some "false") ∧
    (m = none →
      lookupProp (buildConfig (CommonArgs.mk m p l cf nm)) "mode" =
        lookupProp (cf.getD []) "mode") ∧
    (p = none →
      lookupProp (buildConfig (CommonArgs.mk m p l cf nm)) "peer" =
        lookupProp (cf.getD []) "peer") ∧
    (l = none →
      lookupProp (buildConfig (CommonArgs.mk m p l cf nm)) "listener" =
        lookupProp (cf.getD []) "listener") ∧
    (nm = false →
      lookupProp (buildConfig (CommonArgs.mk m p l cf nm)) "multicast_scouting" =
        lookupProp (cf.getD []) "multicast_scouting") := by
  cases m <;> cases p <;> cases l <;> cases nm <;>
    simp [buildConfig, insertIfPresent, lookup_insert_self, lookup_insert_of_ne]

/-- Witness for C5 with peer given twice, no-multicast-scouting set and the
other flags absent. -/
theorem C5_flag_mapping_witness :
    lookupProp (buildConfig (CommonArgs.mk none (some ["tcp/a:7447", "tcp/b:7447"])
        none none true)) "peer" = some "tcp/a:7447,tcp/b:7447" ∧
    lookupProp (buildConfig (CommonArgs.mk none (some ["tcp/a:7447", "tcp/b:7447"])
        none none true)) "multicast_scouting" = some "false" ∧
    lookupProp (buildConfig (CommonArgs.mk none (some ["tcp/a:7447", "tcp/b:7447"])
        none none true)) "mode" = none := by
  have h := C5_flag_mapping none (some ["tcp/a:7447", "tcp/b:7447"]) none none true
  refine ⟨?_, h.2.2.2.1 rfl, ?_⟩
  · have := h.2.1 ["tcp/a:7447", "tcp/b:7447"] rfl
    exact this.trans (by decide)
  · exact (h.2.2.2.2.1 rfl).trans (by decide)

/-- C6 counterexample: in t_sub.rs a change whose payload is not a UTF-8
string still contributes a traceparent entry to the extraction carrier,
namely the fixed string other data type. -/
theorem C6_payload_branch_counterexample :
    lookupProp (tSubCarrier (Value.integer 42)) "traceparent" =
      some "other data type" ∧
    lookupProp (tSubCarrier (Value.integer 42)) "traceparent" ≠ none := by
  refine ⟨rfl, by decide⟩

/-- C6 amended: a UTF-8 string payload contributes its content as the
traceparent value in both subscribers; for any other payload type motion.rs
contributes no entry while t_sub.rs contributes the fixed string
other data type. -/
theorem C6_payload_branch (v : Value) :
    (∀ s, v = Value.stringUtf8 s →
      lookupProp (motionCarrier v) "traceparent" = some s ∧
      lookupProp (tSubCarrier v) "traceparent" = some s) ∧
    ((∀ s, v ≠ Value.stringUtf8 s) →
      lookupProp (motionCarrier v) "traceparent" = none ∧
      lookupProp (tSubCarrier v) "traceparent" = some "other data type") := by
  constructor
  · rintro s rfl
    exact ⟨by simp [motionCarrier, insertProp, lookupProp],
           by simp [tSubCarrier, insertProp, lookupProp]⟩
  · intro h
    cases v with
    | stringUtf8 s => exact absurd rfl (h s)
    | raw d => exact ⟨rfl, rfl⟩
    | custom e d => exact ⟨rfl, rfl⟩
    | properties ps => exact ⟨rfl, rfl⟩
    | json s => exact ⟨rfl, rfl⟩
    | integer i => exact ⟨rfl, rfl⟩
    | float t => exact ⟨rfl, rfl⟩

/-- Witness for C6 amended at a string payload and at a json payload. -/
theorem C6_payload_branch_witness :
    lookupProp (motionCarrier (Value.stringUtf8 "w3c")) "traceparent" =
      some "w3c" ∧
    lookupProp (motionCarrier (Value.json "[1]")) "traceparent" = none := by
  refine ⟨((C6_payload_branch (Value.stringUtf8 "w3c")).1 "w3c" rfl).1, ?_⟩
  exact ((C6_payload_branch (Value.json "[1]")).2 (fun s h => by cases h)).1

/-- C7 counterexample: a byte read from stdin that is not the letter q (here
the letter a, byte 97) leaves both subscriber loops running, so the loop
does not terminate whenever a byte is read. -/
theorem C7_loop_exit_counterexample :
    tSubLoopStep (LoopEvent.key 97) = StepOutcome.cont ∧
    motionLoopStep (LoopEvent.key 97) = StepOutcome.cont := by
  refine ⟨rfl, rfl⟩

/-- C7 amended: both subscriber loops break exactly on the stdin byte q
(113); a change event never breaks the loop; a stream end or a change
without a value panics (so the closes after the loop are skipped); any
other change continues the loop.  The stream close and session close are
the calls placed after the loop. -/
theorem C7_loop_exit (b : Nat) (oc : Option ChangeMsg) (c : ChangeMsg) :
    (tSubLoopStep (LoopEvent.key b) = StepOutcome.exited ↔ b = 113) ∧
    (motionLoopStep (LoopEvent.key b) = StepOutcome.exited ↔ b = 113) ∧
    tSubLoopStep (LoopEvent.change oc) ≠ StepOutcome.exited ∧
    motionLoopStep (LoopEvent.change oc) ≠ StepOutcome.exited ∧
    tSubLoopStep (LoopEvent.change none) = StepOutcome.panicked ∧
    motionLoopStep (LoopEvent.change none) = StepOutcome.panicked ∧
    (c.value = none →
      tSubLoopStep (LoopEvent.change (some c)) = StepOutcome.panicked ∧
      motionLoopStep (LoopEvent.change (some c)) = StepOutcome.panicked) ∧
    (∀ v, c.value = some v →
      tSubLoopStep (LoopEvent.change (some c)) = StepOutcome.cont ∧
      motionLoopStep (LoopEvent.change (some c)) = StepOutcome.cont) ∧
    List.drop 3 tSubCalls = [LibCall.closeStream, LibCall.closeSession] ∧
    List.drop 3 motionCalls = [LibCall.closeStream, LibCall.closeSession] := by
  refine ⟨?_, ?_, ?_, ?_, rfl, rfl, ?_, ?_, rfl, rfl⟩
  · by_cases hb : b = 113 <;> simp [tSubLoopStep, hb]
  · by_cases hb : b = 113 <;> simp [motionLoopStep, hb]
  · cases oc with
    | none => simp [tSubLoopStep]
    | some c' => cases hv : c'.value <;> simp [tSubLoopStep, hv]
  · cases oc with
    | none => simp [motionLoopStep]
    | some c' => cases hv : c'.value <;> simp [motionLoopStep, hv]
  · intro hv
    exact ⟨by simp [tSubLoopStep, hv], by simp [motionLoopStep, hv]⟩
  · intro v hv
    exact ⟨by simp [tSubLoopStep, hv], by simp [motionLoopStep, hv]⟩

/-- Witness for C7 amended: the byte q breaks the loop, and a put change
carrying a string value continues it. -/
theorem C7_loop_exit_witness :
    tSubLoopStep (LoopEvent.key 113) = StepOutcome.exited ∧
    tSubLoopStep (LoopEvent.change (some (ChangeMsg.mk ChangeKind.putKind
      "/demo/example/a" (some (Value.stringUtf8 "x")) 0))) = StepOutcome.cont := by
  constructor
  · exact (C7_loop_exit 113 none (ChangeMsg.mk ChangeKind.putKind "" none 0)).1.mpr rfl
  · exact ((C7_loop_exit 0 none (ChangeMsg.mk ChangeKind.putKind "/demo/example/a"
      (some (Value.stringUtf8 "x")) 0)).2.2.2.2.2.2.2.1 (Value.stringUtf8 "x") rfl).1

/-- C8: the sensor put is independent of the value flag.  Two invocations
differing only in the value argument issue the same put, and whenever the
injected carrier has a traceparent entry the payload is exactly that header
string at the parsed path. -/
theorem C8_value_flag_independence (injector : Props) (a : CommonArgs)
    (path value value' : Option String) :
    sensorPutAction injector a path value' = sensorPutAction injector a path value ∧
    (∀ s, lookupProp injector "traceparent" = some s →
      sensorPutAction injector a path value =
        some (path.getD "/demo/example/zenoh-rs-put", Value.stringUtf8 s)) := by
  constructor
  · cases h : lookupProp injector "traceparent" <;>
      simp [sensorPutAction, h, sensorParseArgs]
  · intro s hs
    simp [sensorPutAction, hs, sensorParseArgs]

/-- Witness for C8: concrete carrier, default path, value flag B. -/
theorem C8_value_flag_independence_witness :
    sensorPutAction [("traceparent", "t1")]
        (CommonArgs.mk none none none none false) none (some "B") =
      some ("/demo/example/zenoh-rs-put", Value.stringUtf8 "t1") := by
  exact (C8_value_flag_independence [("traceparent", "t1")]
    (CommonArgs.mk none none none none false) none (some "B") (some "A")).2
    "t1" (by decide)

/-- C9: whenever the injected carrier has a traceparent entry, t_get first
puts that entry to the hard-coded path /demo/example/eval and then issues
its get on the parsed selector; the put is the same for every selector. -/
theorem C9_fixed_path_put (injector : Props) (a : CommonArgs)
    (selector selector' : Option String) (s : String)
    (h : lookupProp injector "traceparent" = some s) :
    tGetActions injector a selector =
      [Action.putAt "/demo/example/eval" (Value.stringUtf8 s),
       Action.getAt (selector.getD "/demo/example/**")] ∧
    (tGetActions injector a selector).head? =
      (tGetActions injector a selector').head? := by
  constructor
  · simp [tGetActions, h, tGetParseArgs]
  · simp [tGetActions, h]

/-- Witness for C9 at a concrete carrier and selector. -/
theorem C9_fixed_path_put_witness :
    tGetActions [("traceparent", "t9")] (CommonArgs.mk none none none none false)
        (some "/any/where/**") =
      [Action.putAt "/demo/example/eval" (Value.stringUtf8 "t9"),
       Action.getAt "/any/where/**"] := by
  exact (C9_fixed_path_put [("traceparent", "t9")]
    (CommonArgs.mk none none none none false) (some "/any/where/**") none
    "t9" (by decide)).1

/-- C10: the reply to every get request handled by t_eval is addressed to
the registered path, independent of the request selector. -/
theorem C10_reply_path_invariant (registeredPath : String) (env : EvalEnv)
    (req req' : GetRequest) :
    (tEvalHandleReply registeredPath env req).1 = registeredPath ∧
    (tEvalHandleReply registeredPath env req).1 =
      (tEvalHandleReply registeredPath env req').1 :=
  ⟨rfl, rfl⟩

end ZenohExamples
